import Mathlib

/-!
Shallow embedding of the dropdown widget
(`src/components/Dropdown/useDropdownPosition.js`: the `useDropdownPosition`
hook and the `Dropdown` component that shares the file).

Modelling conventions:
* Option values are an abstract type `V` with decidable equality; the source
  assumes primitive, pairwise-distinct values (object-key lookups stringify,
  which is injective on the primitives the component documents).
* A JavaScript value slot that may be `null`/`undefined`, a primitive, or an
  array is the inductive `JSVal`.
* Screen coordinates are integers (`Int`); `Math.round` is then the identity
  and is dropped.  All comparisons in the positioning code are order
  comparisons, which the integer restriction preserves.
* React state updates are modelled as pure state-to-state functions; the
  `useEffect` that recomputes the highlight re-runs exactly when one of its
  dependencies `[open, selectedValue, multi, value2idx]` changed, which the
  step relation below reproduces case by case.
-/

namespace Dropdown

/-- A JavaScript value as used for `value` / `defaultValue` / `selectedValue`:
`null`-or-`undefined`, a primitive, or an array of primitives. -/
inductive JSVal (V : Type) where
  | null : JSVal V
  | prim : V → JSVal V
  | arr : List V → JSVal V
deriving DecidableEq, Repr

/-- An entry of the `options` prop: `{ label, value }`. -/
structure DOption (V : Type) where
  label : String
  value : V
deriving DecidableEq, Repr

/-- The widget state owned by the component: `open` (`useState(false)`),
`highlightedIdx` (`useState(-1)`), and `internalValue`
(`useState(defaultValue ?? (multi ? [] : null))`). -/
structure WidgetState (V : Type) where
  isOpen : Bool
  highlightedIdx : Int
  internalValue : JSVal V
deriving DecidableEq, Repr

/-- `options.reduce((map, o, i) => { map[o.value] = i; return map; }, {})`,
read back at key `v`: the loop walks the list left to right carrying the
running index, a later occurrence of the same value overwriting an earlier
one. -/
def value2idxAux {V : Type} [DecidableEq V] (v : V) :
    List (DOption V) → Nat → Option Nat → Option Nat
  | [], _, acc => acc
  | o :: rest, i, acc =>
      value2idxAux v rest (i + 1) (if o.value = v then some i else acc)

/-- Lookup `value2idx[v]` for the memoised value-to-index map. -/
def value2idx {V : Type} [DecidableEq V] (options : List (DOption V)) (v : V) :
    Option Nat :=
  value2idxAux v options 0 none

/-- `const isControlled = value != null;` — recomputed from the current
`value` prop on every render (`!=` is loose, so both `undefined` and `null`
count as absent; both are `JSVal.null` here). -/
def isControlled {V : Type} [DecidableEq V] (value : JSVal V) : Bool :=
  decide (value ≠ JSVal.null)

/-- `const selectedValue = isControlled ? value : internalValue;` -/
def selectedValue {V : Type} [DecidableEq V] (value internalValue : JSVal V) : JSVal V :=
  if isControlled value then value else internalValue

/-- `isSelected(optVal)`: single-select is `selectedValue === optVal`
(strict equality against a primitive), multi-select is
`Array.isArray(selectedValue) && selectedValue.includes(optVal)`. -/
def isSelected {V : Type} [DecidableEq V] (multi : Bool) (sv : JSVal V)
    (optVal : V) : Bool :=
  if !multi then decide (sv = JSVal.prim optVal)
  else
    match sv with
    | JSVal.arr vs => optVal ∈ vs
    | _ => false

/-- The body of the highlight `useEffect`: the value `highlightedIdx` is set
to, as a function of the effect's dependencies
`[open, selectedValue, multi, value2idx]`.  When open:
`!multi && selectedValue != null && value2idx[selectedValue] != null` picks
the selected option's index, else 0 (an array key never hits a primitive key
of the map, so a multi-style array under `!multi` also falls to 0).
When closed: -1. -/
def recomputeHighlight {V : Type} [DecidableEq V] (isOpen multi : Bool)
    (sv : JSVal V) (options : List (DOption V)) : Int :=
  if isOpen then
    if !multi then
      match sv with
      | JSVal.prim v =>
          match value2idx options v with
          | some i => (i : Int)
          | none => 0
      | _ => 0
    else 0
  else -1

/-- Re-run the highlight effect on a state (used at the points where one of
the effect's dependencies just changed). -/
def applyHighlightEffect {V : Type} [DecidableEq V] (multi : Bool)
    (value : JSVal V) (options : List (DOption V)) (s : WidgetState V) :
    WidgetState V :=
  { s with
    highlightedIdx :=
      recomputeHighlight s.isOpen multi (selectedValue value s.internalValue)
        options }

/-- `case 'ArrowDown': setHighlightedIdx((idx) => (idx + 1) % options.length)`.
For the dividends that occur (`idx ≥ -1`, so `idx + 1 ≥ 0`) and a non-empty
list, the JavaScript remainder agrees with `Int.emod`; with an empty list the
source produces `NaN`, outside this model (the theorems about the arrows
assume a non-empty list). -/
def handleArrowDown {V : Type} (idx : Int) (options : List (DOption V)) : Int :=
  (idx + 1) % (options.length : Int)

/-- `case 'ArrowUp': setHighlightedIdx((idx) => idx <= 0 ? options.length - 1 : idx - 1)`. -/
def handleArrowUp {V : Type} (idx : Int) (options : List (DOption V)) : Int :=
  if idx ≤ 0 then (options.length : Int) - 1 else idx - 1

/-- The multi-select branch of `handleSelect`:
`oldVals.includes(v) ? oldVals.filter((x) => x !== v) : [...oldVals, v]`. -/
def toggleMulti {V : Type} [DecidableEq V] (oldVals : List V) (v : V) :
    List V :=
  if v ∈ oldVals then oldVals.filter (fun x => x ≠ v) else oldVals ++ [v]

/-- `Array.isArray(selectedValue) ? selectedValue : []` -/
def asArray {V : Type} : JSVal V → List V
  | JSVal.arr vs => vs
  | _ => []

/-- Outcome of one `handleSelect` call: the next widget state and the
argument `onChange` was called with (`none` when no call happened). -/
structure SelectResult (V : Type) where
  state : WidgetState V
  onChangeArg : Option (JSVal V)
deriving DecidableEq, Repr

/-- `handleSelect(option)`: no-op when disabled; multi-select toggles
`option.value` in the collection, writes the internal value only when
uncontrolled, and fires `onChange(newVals)`; single-select writes the
internal value only when uncontrolled, fires `onChange(option.value)` and
closes the menu. -/
def handleSelect {V : Type} [DecidableEq V] (multi disabled : Bool)
    (value : JSVal V) (s : WidgetState V) (option : DOption V) :
    SelectResult V :=
  if disabled then ⟨s, none⟩
  else if multi then
    let oldVals := asArray (selectedValue value s.internalValue)
    let newVals := toggleMulti oldVals option.value
    ⟨{ s with
        internalValue :=
          if isControlled value then s.internalValue else JSVal.arr newVals },
      some (JSVal.arr newVals)⟩
  else
    ⟨{ s with
        internalValue :=
          if isControlled value then s.internalValue else JSVal.prim option.value,
        isOpen := false },
      some (JSVal.prim option.value)⟩

/-- `handleSelect` followed by the highlight effect, which re-runs exactly
when one of its dependencies changed during the select:
* disabled: nothing changed, no re-run;
* multi-select uncontrolled: `selectedValue` became a freshly allocated
  array, so the effect re-runs;
* multi-select controlled: `selectedValue` is still the external `value` and
  `open` is untouched, so the effect does not re-run;
* single-select: `open` flipped to `false`, so the effect re-runs. -/
def selectPostRender {V : Type} [DecidableEq V] (multi disabled : Bool)
    (value : JSVal V) (options : List (DOption V)) (s : WidgetState V)
    (option : DOption V) : WidgetState V :=
  let r := handleSelect multi disabled value s option
  if disabled then r.state
  else if multi then
    if isControlled value then r.state
    else applyHighlightEffect multi value options r.state
  else applyHighlightEffect multi value options r.state

/-- One user-visible operation on the widget, with the render/effect step it
triggers.  Opening and closing flip `open` and change an effect dependency,
so the highlight effect re-runs; the arrow keys and hover call
`setHighlightedIdx` directly (no dependency changes, no re-run); select is
`selectPostRender`. -/
inductive Step {V : Type} [DecidableEq V] (multi disabled : Bool)
    (value : JSVal V) (options : List (DOption V)) :
    WidgetState V → WidgetState V → Prop where
  | openMenu (s : WidgetState V) (hd : disabled = false)
      (h : s.isOpen = false) :
      Step multi disabled value options s
        (applyHighlightEffect multi value options { s with isOpen := true })
  | closeMenu (s : WidgetState V) (h : s.isOpen = true) :
      Step multi disabled value options s
        (applyHighlightEffect multi value options { s with isOpen := false })
  | arrowDown (s : WidgetState V) (hd : disabled = false)
      (h : s.isOpen = true) :
      Step multi disabled value options s
        { s with highlightedIdx := handleArrowDown s.highlightedIdx options }
  | arrowUp (s : WidgetState V) (hd : disabled = false)
      (h : s.isOpen = true) :
      Step multi disabled value options s
        { s with highlightedIdx := handleArrowUp s.highlightedIdx options }
  | hover (s : WidgetState V) (i : Nat) (h : s.isOpen = true)
      (hi : i < options.length) :
      Step multi disabled value options s
        { s with highlightedIdx := (i : Int) }
  | select (s : WidgetState V) (option : DOption V) (h : s.isOpen = true)
      (ho : option ∈ options) :
      Step multi disabled value options s
        (selectPostRender multi disabled value options s option)

/-- The highlight invariant claimed by the spec: a valid index into the
option list, or -1. -/
def validHighlight (idx : Int) (n : Nat) : Prop :=
  idx = -1 ∨ (0 ≤ idx ∧ idx < (n : Int))

instance (idx : Int) (n : Nat) : Decidable (validHighlight idx n) := by
  unfold validHighlight; infer_instance

/-- A screen rectangle as returned by `getBoundingClientRect()`, restricted
to the fields the positioning code reads. -/
structure Rect where
  top : Int
  bottom : Int
  left : Int
  width : Int
  height : Int
deriving DecidableEq, Repr

/-- `getViewport()`. -/
structure Viewport where
  width : Int
  height : Int
deriving DecidableEq, Repr

/-- The computed placement: the `style` fields (`top`, `left`, `minWidth`,
visibility) plus the position name, `flipped = true` meaning `pos = 'top'`. -/
structure PlacementState where
  top : Int
  left : Int
  minWidth : Int
  flipped : Bool
  visible : Bool
deriving DecidableEq, Repr

/-- `updatePosition()` from `useDropdownPosition`, as a pure function of the
two rectangles and the viewport (the guard for unattached refs keeps the
menu hidden and is outside this pure core).  `Math.round` is the identity on
integers and is dropped. -/
def updatePosition (buttonRect menuRect : Rect) (viewport : Viewport) :
    PlacementState :=
  let top := buttonRect.bottom
  let left := buttonRect.left
  let flip :=
    top + menuRect.height > viewport.height ∧
      buttonRect.top > menuRect.height + 8
  let top2 := if flip then buttonRect.top - menuRect.height else top
  let adjustedLeft :=
    if left + menuRect.width > viewport.width then
      max 8 (viewport.width - menuRect.width - 8)
    else left
  { top := top2
    left := adjustedLeft
    minWidth := max buttonRect.width 160
    flipped := decide flip
    visible := true }

/-! ### Lemmas about the value-to-index map -/

theorem value2idxAux_not_mem {V : Type} [DecidableEq V] (v : V)
    (l : List (DOption V)) (i : Nat) (acc : Option Nat)
    (h : v ∉ l.map (·.value)) : value2idxAux v l i acc = acc := by
  induction l generalizing i acc with
  | nil => rfl
  | cons o rest ih =>
      simp only [List.map_cons, List.mem_cons, not_or] at h
      have hv : ¬ o.value = v := fun he => h.1 he.symm
      simp only [value2idxAux, if_neg hv]
      exact ih _ _ h.2

theorem value2idxAux_lt_of_some {V : Type} [DecidableEq V] (v : V)
    (l : List (DOption V)) (i : Nat) (acc : Option Nat) (j : Nat)
    (hacc : ∀ j2, acc = some j2 → j2 < i)
    (h : value2idxAux v l i acc = some j) : j < i + l.length := by
  induction l generalizing i acc with
  | nil =>
      have := hacc j h
      simpa using this
  | cons o rest ih =>
      simp only [value2idxAux] at h
      have hacc2 : ∀ j2, (if o.value = v then some i else acc) = some j2 →
          j2 < i + 1 := by
        intro j2 hj2
        by_cases hc : o.value = v
        · rw [if_pos hc] at hj2
          simp only [Option.some.injEq] at hj2
          omega
        · rw [if_neg hc] at hj2
          exact Nat.lt_succ_of_lt (hacc j2 hj2)
      have := ih (i + 1) (if o.value = v then some i else acc) hacc2 h
      simp only [List.length_cons]
      omega

theorem value2idxAux_of_nodup {V : Type} [DecidableEq V] (v : V)
    (l : List (DOption V)) (i : Nat) (acc : Option Nat) (k : Nat)
    (o : DOption V) (hnd : (l.map (·.value)).Nodup) (hk : l[k]? = some o)
    (hv : o.value = v) : value2idxAux v l i acc = some (i + k) := by
  induction l generalizing i acc k with
  | nil => simp at hk
  | cons o2 rest ih =>
      simp only [List.map_cons, List.nodup_cons] at hnd
      cases k with
      | zero =>
          simp only [List.getElem?_cons_zero, Option.some.injEq] at hk
          subst hk
          simp only [value2idxAux, if_pos hv]
          rw [value2idxAux_not_mem v rest (i + 1) (some i)
            (by rw [← hv]; exact hnd.1)]
          simp
      | succ k2 =>
          simp only [List.getElem?_cons_succ] at hk
          have homem : o ∈ rest := by
            have hlt : k2 < rest.length := by
              by_contra hge
              rw [List.getElem?_eq_none (Nat.le_of_not_lt hge)] at hk
              exact Option.noConfusion hk
            have : rest[k2] = o := by
              have := List.getElem?_eq_getElem hlt
              rw [this] at hk
              exact Option.some.inj hk
            exact this ▸ List.getElem_mem hlt
          have hvmem : v ∈ rest.map (·.value) :=
            hv ▸ List.mem_map_of_mem (·.value) homem
          have hne2 : ¬ o2.value = v := fun he => hnd.1 (he ▸ hvmem)
          simp only [value2idxAux, if_neg hne2]
          have := ih (i + 1) acc k2 hnd.2 hk
          rw [this]
          congr 1
          omega

theorem value2idx_lt {V : Type} [DecidableEq V] (options : List (DOption V))
    (v : V) (j : Nat) (h : value2idx options v = some j) : j < options.length := by
  have := value2idxAux_lt_of_some v options 0 none j (by simp) h
  simpa using this

theorem value2idx_of_nodup {V : Type} [DecidableEq V]
    (options : List (DOption V)) (v : V) (k : Nat) (o : DOption V)
    (hnd : (options.map (·.value)).Nodup) (hk : options[k]? = some o)
    (hv : o.value = v) : value2idx options v = some k := by
  have := value2idxAux_of_nodup v options 0 none k o hnd hk hv
  simpa using this

theorem value2idx_not_mem {V : Type} [DecidableEq V]
    (options : List (DOption V)) (v : V) (h : v ∉ options.map (·.value)) :
    value2idx options v = none :=
  value2idxAux_not_mem v options 0 none h

theorem validHighlight_of_lt (i n : Nat) (h : i < n) : validHighlight (i : Int) n :=
  Or.inr ⟨Int.ofNat_nonneg i, by exact_mod_cast h⟩

theorem validHighlight_zero (n : Nat) (h : 0 < n) : validHighlight 0 n :=
  Or.inr ⟨le_refl 0, by exact_mod_cast h⟩

/-- Whatever the highlight effect computes is a valid index or -1, provided
the option list is non-empty. -/
theorem recomputeHighlight_valid {V : Type} [DecidableEq V]
    (isOpen multi : Bool) (sv : JSVal V) (options : List (DOption V))
    (hne : options ≠ []) :
    validHighlight (recomputeHighlight isOpen multi sv options)
      options.length := by
  have hn : 0 < options.length := List.length_pos.mpr hne
  have h0 : validHighlight 0 options.length := validHighlight_zero _ hn
  cases isOpen with
  | false => exact Or.inl rfl
  | true =>
      cases multi with
      | true => simpa [recomputeHighlight] using h0
      | false =>
          cases sv with
          | null => simpa [recomputeHighlight] using h0
          | arr vs => simpa [recomputeHighlight] using h0
          | prim v =>
              simp only [recomputeHighlight, Bool.not_false, if_true]
              cases h : value2idx options v with
              | none => simpa using h0
              | some i =>
                  simpa using validHighlight_of_lt i _ (value2idx_lt options v i h)

/-! ### C1 — highlight invariant -/

/-- **C1 counterexample**: the claim includes the empty option list, but
opening the menu over an empty list runs the highlight effect's else-branch
and sets `highlightedIdx` to 0, which is neither -1 nor a valid index into a
list of length 0 (the starting state satisfies the invariant, the resulting
state does not). -/
theorem C1_counterexample :
    Step false false (JSVal.null : JSVal Nat) []
      ⟨false, -1, JSVal.null⟩ ⟨true, 0, JSVal.null⟩
    ∧ validHighlight
        (WidgetState.highlightedIdx (⟨false, -1, JSVal.null⟩ : WidgetState Nat))
        (List.length ([] : List (DOption Nat)))
    ∧ ¬ validHighlight
        (WidgetState.highlightedIdx (⟨true, 0, JSVal.null⟩ : WidgetState Nat))
        (List.length ([] : List (DOption Nat))) := by
  refine ⟨?_, by decide, by decide⟩
  exact Step.openMenu ⟨false, -1, JSVal.null⟩ rfl rfl

/-- **C1** (amended): over a *non-empty* option list, `highlightedIdx` is
always -1 or a valid index `0 ≤ idx < optionCount`, and every operation
(open, close, ArrowDown, ArrowUp, hover, select — in every combination of
multi/disabled/controlled) preserves this.  With an empty option list,
opening sets the highlight to 0, which is not a valid index (see the
counterexample). -/
theorem C1_highlightedIdx_invariant {V : Type} [DecidableEq V]
    (multi disabled : Bool) (value : JSVal V) (options : List (DOption V))
    (hne : options ≠ []) (s s2 : WidgetState V)
    (hs : validHighlight s.highlightedIdx options.length)
    (hstep : Step multi disabled value options s s2) :
    validHighlight s2.highlightedIdx options.length := by
  have hn : 0 < options.length := List.length_pos.mpr hne
  have hnz : ((options.length : Int)) ≠ 0 := by
    exact_mod_cast Nat.pos_iff_ne_zero.mp hn
  have hpos : (0 : Int) < (options.length : Int) := by exact_mod_cast hn
  cases hstep with
  | openMenu hd h =>
      simpa [applyHighlightEffect] using
        recomputeHighlight_valid true multi
          (selectedValue value s.internalValue) options hne
  | closeMenu h =>
      simpa [applyHighlightEffect] using
        recomputeHighlight_valid false multi
          (selectedValue value s.internalValue) options hne
  | arrowDown hd h =>
      exact Or.inr ⟨Int.emod_nonneg _ hnz, Int.emod_lt_of_pos _ hpos⟩
  | arrowUp hd h =>
      have hgoal : validHighlight (handleArrowUp s.highlightedIdx options)
          options.length := by
        unfold validHighlight at hs ⊢
        unfold handleArrowUp
        split
        · omega
        · omega
      exact hgoal
  | hover i h hi => exact validHighlight_of_lt i _ hi
  | select option h ho =>
      cases disabled with
      | true => simpa [selectPostRender, handleSelect] using hs
      | false =>
          cases multi with
          | false =>
              simpa [selectPostRender, applyHighlightEffect] using
                recomputeHighlight_valid _ false _ options hne
          | true =>
              cases hctl : isControlled value with
              | true => simpa [selectPostRender, handleSelect, hctl] using hs
              | false =>
                  simpa [selectPostRender, applyHighlightEffect, hctl] using
                    recomputeHighlight_valid _ true _ options hne

/-- Witness for C1: a two-option list, ArrowDown from highlight 0 while open
lands at 1, still a valid index. -/
theorem C1_highlightedIdx_invariant_witness : validHighlight (1 : Int) 2 := by
  have h := C1_highlightedIdx_invariant false false (JSVal.null : JSVal Nat)
      [⟨"A", 1⟩, ⟨"B", 2⟩] (by decide) ⟨true, 0, JSVal.null⟩ _ (by decide)
      (Step.arrowDown ⟨true, 0, JSVal.null⟩ rfl rfl)
  have he : handleArrowDown (0 : Int) [(⟨"A", 1⟩ : DOption Nat), ⟨"B", 2⟩] = 1 := by
    decide
  simpa [he] using h

/-! ### C2 — highlight on open and close -/

/-- **C2**: with the menu open in single-select mode the effect puts the
highlight at the index of the selected option when its value occurs in the
list (values assumed pairwise distinct, as the source's object-keyed map
requires), at 0 when the value is absent or nothing is selected; in
multi-select mode the highlight is 0; when the menu closes it is -1. -/
theorem C2_open_close_highlight {V : Type} [DecidableEq V] (multi : Bool)
    (options : List (DOption V)) (sv : JSVal V) :
    (∀ (v : V) (k : Nat) (o : DOption V), sv = JSVal.prim v →
        (options.map (·.value)).Nodup → options[k]? = some o → o.value = v →
        recomputeHighlight true false sv options = (k : Int))
    ∧ (∀ v : V, sv = JSVal.prim v → v ∉ options.map (·.value) →
        recomputeHighlight true false sv options = 0)
    ∧ (sv = JSVal.null → recomputeHighlight true false sv options = 0)
    ∧ recomputeHighlight true true sv options = 0
    ∧ recomputeHighlight false multi sv options = -1 := by
  refine ⟨?_, ?_, ?_, ?_, ?_⟩
  · intro v k o hsv hnd hk hv
    subst hsv
    have := value2idx_of_nodup options v k o hnd hk hv
    simp [recomputeHighlight, this]
  · intro v hsv hmem
    subst hsv
    have := value2idx_not_mem options v hmem
    simp [recomputeHighlight, this]
  · intro hsv
    subst hsv
    simp [recomputeHighlight]
  · simp [recomputeHighlight]
  · simp [recomputeHighlight]

/-- Witness for C2: value 2 selected in `[A↦1, B↦2]`, opening highlights
index 1. -/
theorem C2_open_close_highlight_witness :
    recomputeHighlight true false (JSVal.prim 2)
      [(⟨"A", 1⟩ : DOption Nat), ⟨"B", 2⟩] = (1 : Int) :=
  (C2_open_close_highlight false [(⟨"A", 1⟩ : DOption Nat), ⟨"B", 2⟩]
      (JSVal.prim 2)).1 2 1 ⟨"B", 2⟩ rfl (by decide) (by decide) rfl

/-! ### C3 — wrap-around of the highlight movement -/

/-- **C3**: over a non-empty option list and a current highlight
`0 ≤ idx < n`, ArrowDown computes `(idx + 1) mod n`, ArrowUp computes
`(idx - 1) mod n`; in particular ArrowDown from the last index wraps to 0
and ArrowUp from 0 wraps to the last index. -/
theorem C3_moveHighlight_wrap {V : Type} (options : List (DOption V))
    (idx : Int) (hne : options ≠ []) (h0 : 0 ≤ idx)
    (hlt : idx < (options.length : Int)) :
    handleArrowDown idx options = (idx + 1) % (options.length : Int)
    ∧ handleArrowUp idx options = (idx - 1) % (options.length : Int)
    ∧ (idx = (options.length : Int) - 1 → handleArrowDown idx options = 0)
    ∧ (idx = 0 → handleArrowUp idx options = (options.length : Int) - 1) := by
  have hn : 0 < options.length := List.length_pos.mpr hne
  have hpos : (0 : Int) < (options.length : Int) := by exact_mod_cast hn
  refine ⟨rfl, ?_, ?_, ?_⟩
  · unfold handleArrowUp
    by_cases hc : idx ≤ 0
    · rw [if_pos hc]
      have hidx : idx = 0 := le_antisymm hc h0
      subst hidx
      have h2 : ((0 : Int) - 1 + (options.length : Int) * 1) %
          (options.length : Int) = ((0 : Int) - 1) % (options.length : Int) :=
        Int.add_mul_emod_self_left ((0 : Int) - 1) (options.length : Int) 1
      have h3 : (0 : Int) - 1 + (options.length : Int) * 1 =
          (options.length : Int) - 1 := by ring
      rw [h3] at h2
      rw [← h2]
      exact (Int.emod_eq_of_lt (by omega) (by omega)).symm
    · rw [if_neg hc]
      exact (Int.emod_eq_of_lt (by omega) (by omega)).symm
  · intro hidx
    unfold handleArrowDown
    rw [hidx]
    have h3 : (options.length : Int) - 1 + 1 = (options.length : Int) := by ring
    rw [h3, Int.emod_self]
  · intro hidx
    simp [handleArrowUp, hidx]

/-- Witness for C3: three options, ArrowDown from the last index (2) wraps
to 0. -/
theorem C3_moveHighlight_wrap_witness :
    handleArrowDown (2 : Int)
      [(⟨"A", 1⟩ : DOption Nat), ⟨"B", 2⟩, ⟨"C", 3⟩] = 0 :=
  (C3_moveHighlight_wrap [(⟨"A", 1⟩ : DOption Nat), ⟨"B", 2⟩, ⟨"C", 3⟩] 2
      (by decide) (by decide) (by decide)).2.2.1 (by decide)

/-! ### C4 — single-select commit -/

/-- **C4 counterexample**: the claim quantifies over every non-disabled
single-select widget, but in *controlled* mode (external value 1) selecting
option B (value 2) leaves the reported current value at the external 1, not
at the option's value 2 (`onChange` does fire with 2 and the menu closes,
cf. C6). -/
theorem C4_counterexample :
    selectedValue (JSVal.prim (1 : Nat))
        (handleSelect false false (JSVal.prim 1) ⟨true, 0, JSVal.prim 1⟩
          ⟨"B", 2⟩).state.internalValue = JSVal.prim 1
    ∧ selectedValue (JSVal.prim (1 : Nat))
        (handleSelect false false (JSVal.prim 1) ⟨true, 0, JSVal.prim 1⟩
          ⟨"B", 2⟩).state.internalValue ≠ JSVal.prim 2 := by
  decide

/-- **C4** (amended): in *uncontrolled* single-select mode with the widget
not disabled, selecting an option sets the current value to that option's
value, transitions the menu to Closed, and synchronously hands the raw value
to the change listener; repeating the select on the already-selected option
is idempotent (value unchanged, menu closes again, same notification).  In
controlled mode the reported value instead stays the external one (see C6),
while the menu still closes and the listener still fires. -/
theorem C4_single_select {V : Type} [DecidableEq V] (value : JSVal V)
    (s : WidgetState V) (option : DOption V)
    (hu : isControlled value = false) :
    selectedValue value
        (handleSelect false false value s option).state.internalValue
      = JSVal.prim option.value
    ∧ (handleSelect false false value s option).state.isOpen = false
    ∧ (handleSelect false false value s option).onChangeArg
        = some (JSVal.prim option.value)
    ∧ (handleSelect false false value
          (handleSelect false false value s option).state option).state.internalValue
        = (handleSelect false false value s option).state.internalValue
    ∧ (handleSelect false false value
          (handleSelect false false value s option).state option).state.isOpen
        = false
    ∧ (handleSelect false false value
          (handleSelect false false value s option).state option).onChangeArg
        = some (JSVal.prim option.value) := by
  simp [handleSelect, selectedValue, hu]

/-- Witness for C4: uncontrolled widget, selecting B (value 2) makes the
current value 2. -/
theorem C4_single_select_witness :
    selectedValue (JSVal.null : JSVal Nat)
        (handleSelect false false JSVal.null ⟨true, 0, JSVal.null⟩
          ⟨"B", 2⟩).state.internalValue = JSVal.prim 2 :=
  (C4_single_select JSVal.null ⟨true, 0, JSVal.null⟩ ⟨"B", 2⟩ (by decide)).1

/-! ### C5 — multi-select toggle -/

theorem toggleMulti_of_mem {V : Type} [DecidableEq V] (vs : List V) (v : V)
    (h : v ∈ vs) : toggleMulti vs v = vs.filter (fun x => x ≠ v) := by
  simp [toggleMulti, h]

theorem toggleMulti_of_not_mem {V : Type} [DecidableEq V] (vs : List V) (v : V)
    (h : v ∉ vs) : toggleMulti vs v = vs ++ [v] := by
  simp [toggleMulti, h]

/-- Toggling twice restores the collection up to order (for a
duplicate-free collection, as the component maintains). -/
theorem toggleMulti_involution {V : Type} [DecidableEq V] (vs : List V)
    (v : V) (hnd : vs.Nodup) :
    (toggleMulti (toggleMulti vs v) v).Perm vs := by
  by_cases h : v ∈ vs
  · rw [toggleMulti_of_mem vs v h]
    have h2 : v ∉ vs.filter (fun x => x ≠ v) := by simp
    rw [toggleMulti_of_not_mem _ _ h2]
    refine (List.perm_append_singleton _ _).trans ?_
    have he : vs.erase v = vs.filter (fun x => x ≠ v) := by
      simpa using List.Nodup.erase_eq_filter hnd v
    rw [← he]
    exact (List.perm_cons_erase h).symm
  · rw [toggleMulti_of_not_mem vs v h]
    have h2 : v ∈ vs ++ [v] := by simp
    rw [toggleMulti_of_mem _ _ h2]
    have h3 : vs.filter (fun x => x ≠ v) = vs :=
      List.filter_eq_self.mpr (fun x hx => by
        simp only [ne_eq, decide_eq_true_eq]
        exact fun he => h (he ▸ hx))
    have h5 : List.filter (fun x => x ≠ v) [v] = [] := by simp
    rw [List.filter_append, h3, h5, List.append_nil]

/-- **C5**: in non-disabled multi-select mode, with the current selection
collection `vs`, selecting an option toggles its value (removes it when
present, appends it when absent, leaves every other value's membership
unchanged), leaves the menu's open flag untouched, and notifies the change
listener with the new collection; toggling the same option twice restores
the original contents up to order. -/
theorem C5_multi_toggle {V : Type} [DecidableEq V] (value : JSVal V)
    (s : WidgetState V) (option : DOption V) (vs : List V)
    (hsv : selectedValue value s.internalValue = JSVal.arr vs)
    (hnd : vs.Nodup) :
    (handleSelect true false value s option).state.isOpen = s.isOpen
    ∧ (handleSelect true false value s option).onChangeArg
        = some (JSVal.arr (toggleMulti vs option.value))
    ∧ (option.value ∈ vs → option.value ∉ toggleMulti vs option.value)
    ∧ (option.value ∉ vs → option.value ∈ toggleMulti vs option.value)
    ∧ (∀ x : V, x ≠ option.value →
        (x ∈ toggleMulti vs option.value ↔ x ∈ vs))
    ∧ (toggleMulti (toggleMulti vs option.value) option.value).Perm vs := by
  refine ⟨?_, ?_, ?_, ?_, ?_, toggleMulti_involution vs option.value hnd⟩
  · simp [handleSelect]
  · simp [handleSelect, hsv, asArray]
  · intro h
    rw [toggleMulti_of_mem vs option.value h]
    simp
  · intro h
    rw [toggleMulti_of_not_mem vs option.value h]
    simp
  · intro x hx
    by_cases h : option.value ∈ vs
    · rw [toggleMulti_of_mem vs option.value h]
      simp [hx]
    · rw [toggleMulti_of_not_mem vs option.value h]
      simp [hx]

/-- Witness for C5: uncontrolled multi widget with selection `[1]`,
selecting A (value 1) notifies with the emptied collection. -/
theorem C5_multi_toggle_witness :
    (handleSelect true false (JSVal.null : JSVal Nat)
        ⟨true, 0, JSVal.arr [1]⟩ ⟨"A", 1⟩).onChangeArg
      = some (JSVal.arr []) := by
  have h := (C5_multi_toggle (JSVal.null : JSVal Nat) ⟨true, 0, JSVal.arr [1]⟩
      ⟨"A", 1⟩ [1] (by decide) (by decide)).2.1
  have he : toggleMulti [1] (1 : Nat) = [] := by decide
  rw [he] at h
  exact h

/-! ### C6 — controlled mode is a frame for select -/

/-- **C6**: in controlled mode, `handleSelect` never touches the internal
value state; the externally supplied value is still the one reported (so
`isSelected` answers unchanged), yet `onChange` fires with the intended new
value — the option's value in single-select, the toggled collection in
multi-select. -/
theorem C6_controlled_select_frame {V : Type} [DecidableEq V] (multi : Bool)
    (value : JSVal V) (s : WidgetState V) (option : DOption V)
    (hc : isControlled value = true) :
    (handleSelect multi false value s option).state.internalValue
        = s.internalValue
    ∧ selectedValue value
        (handleSelect multi false value s option).state.internalValue = value
    ∧ (∀ w : V, isSelected multi
          (selectedValue value
            (handleSelect multi false value s option).state.internalValue) w
        = isSelected multi value w)
    ∧ (multi = false →
        (handleSelect multi false value s option).onChangeArg
          = some (JSVal.prim option.value))
    ∧ (∀ vs : List V, multi = true → value = JSVal.arr vs →
        (handleSelect multi false value s option).onChangeArg
          = some (JSVal.arr (toggleMulti vs option.value))) := by
  cases multi with
  | false =>
      refine ⟨?_, ?_, ?_, ?_, ?_⟩
      · simp [handleSelect, hc]
      · simp [handleSelect, selectedValue, hc]
      · intro w; simp [handleSelect, selectedValue, hc]
      · intro _; simp [handleSelect]
      · intro vs hm; exact absurd hm (by simp)
  | true =>
      refine ⟨?_, ?_, ?_, ?_, ?_⟩
      · simp [handleSelect, hc]
      · simp [handleSelect, selectedValue, hc]
      · intro w; simp [handleSelect, selectedValue, hc]
      · intro hm; exact absurd hm (by simp)
      · intro vs _ hv
        subst hv
        simp [handleSelect, selectedValue, hc, asArray]

/-- Witness for C6: controlled single-select with external value 1,
selecting B (value 2) keeps the reported value 1. -/
theorem C6_controlled_select_frame_witness :
    selectedValue (JSVal.prim (1 : Nat))
        (handleSelect false false (JSVal.prim 1) ⟨true, 0, JSVal.null⟩
          ⟨"B", 2⟩).state.internalValue = JSVal.prim 1 :=
  (C6_controlled_select_frame false (JSVal.prim 1) ⟨true, 0, JSVal.null⟩
      ⟨"B", 2⟩ (by decide)).2.1

/-! ### C7 — controlled/uncontrolled mode determination -/

/-- **C7 counterexample**: the controlled flag is recomputed from the current
`value` prop on every render (`value != null`), not fixed at mount: an
instance mounted with `value = 1` is controlled, but a later render of the
same instance with the prop absent reads the internal state again — the
value-sourcing mode changed within one lifetime. -/
theorem C7_counterexample :
    isControlled (JSVal.prim (1 : Nat)) = true
    ∧ isControlled (JSVal.null : JSVal Nat) = false
    ∧ selectedValue (JSVal.prim (1 : Nat)) (JSVal.prim 2) = JSVal.prim 1
    ∧ selectedValue (JSVal.null : JSVal Nat) (JSVal.prim 2) = JSVal.prim 2 := by
  decide

/-- **C7** (amended): at any single render exactly one value source is read —
the external prop when non-absent, the internal state otherwise — but the
choice is recomputed from the *current* prop at each render; it stays fixed
over the lifetime only as long as the prop's presence does not change, and
is not latched once at mount. -/
theorem C7_value_sourcing {V : Type} [DecidableEq V]
    (v1 v2 internal : JSVal V) :
    (isControlled v1 = true → selectedValue v1 internal = v1)
    ∧ (isControlled v1 = false → selectedValue v1 internal = internal)
    ∧ (isControlled v1 = false ↔ v1 = JSVal.null)
    ∧ ((v1 = JSVal.null ↔ v2 = JSVal.null) →
        isControlled v1 = isControlled v2) := by
  refine ⟨?_, ?_, ?_, ?_⟩
  · intro h; simp [selectedValue, h]
  · intro h; simp [selectedValue, h]
  · simp [isControlled]
  · intro h
    simp only [isControlled, ne_eq, decide_eq_decide]
    exact not_congr h

/-- Witness for C7: a render with the prop present reads the prop. -/
theorem C7_value_sourcing_witness :
    selectedValue (JSVal.prim (3 : Nat)) (JSVal.prim 4) = JSVal.prim 3 :=
  (C7_value_sourcing (JSVal.prim 3) JSVal.null (JSVal.prim 4)).1 (by decide)

/-! ### C8 — vertical placement and flip -/

/-- **C8**: the default placement is below the trigger (`top = trigger
bottom`, `left = trigger left`, not flipped); when the menu would overflow
the bottom (`top + menuHeight > viewportHeight`) and there is room above
(`triggerTop > menuHeight + 8`), the placement flips to
`top = triggerTop - menuHeight` with `flipped = true`; when neither
direction fits, the default bottom placement is kept. -/
theorem C8_vertical_placement (buttonRect menuRect : Rect) (vp : Viewport) :
    (¬ (buttonRect.bottom + menuRect.height > vp.height) →
        (updatePosition buttonRect menuRect vp).top = buttonRect.bottom
        ∧ (updatePosition buttonRect menuRect vp).flipped = false)
    ∧ (buttonRect.bottom + menuRect.height > vp.height →
        buttonRect.top > menuRect.height + 8 →
        (updatePosition buttonRect menuRect vp).top
            = buttonRect.top - menuRect.height
        ∧ (updatePosition buttonRect menuRect vp).flipped = true)
    ∧ (buttonRect.bottom + menuRect.height > vp.height →
        ¬ (buttonRect.top > menuRect.height + 8) →
        (updatePosition buttonRect menuRect vp).top = buttonRect.bottom
        ∧ (updatePosition buttonRect menuRect vp).flipped = false)
    ∧ (¬ (buttonRect.left + menuRect.width > vp.width) →
        (updatePosition buttonRect menuRect vp).left = buttonRect.left) := by
  refine ⟨?_, ?_, ?_, ?_⟩
  · intro h
    constructor <;> simp [updatePosition, h]
  · intro h1 h2
    constructor <;> simp [updatePosition, h1, h2]
  · intro h1 h2
    constructor <;> simp [updatePosition, h1, h2]
  · intro h
    simp [updatePosition, h]

/-- Witness for C8: trigger near the bottom (top 500, bottom 520) of a
800×600 viewport and a 300-tall menu flips above: top = 500 - 300 = 200. -/
theorem C8_vertical_placement_witness :
    (updatePosition ⟨500, 520, 10, 100, 20⟩ ⟨0, 0, 0, 100, 300⟩
        ⟨800, 600⟩).top = 200
    ∧ (updatePosition ⟨500, 520, 10, 100, 20⟩ ⟨0, 0, 0, 100, 300⟩
        ⟨800, 600⟩).flipped = true := by
  have h := (C8_vertical_placement ⟨500, 520, 10, 100, 20⟩
      ⟨0, 0, 0, 100, 300⟩ ⟨800, 600⟩).2.1 (by decide) (by decide)
  refine ⟨?_, h.2⟩
  rw [h.1]
  decide

/-! ### C9 — horizontal clamping -/

/-- **C9 counterexample**: viewport width 100, menu width 95, trigger left
10 — the menu is wider than `viewportWidth - triggerLeft` (95 > 90), but the
computed left is the margin 8, not `viewportWidth - menuWidth - 8 = -3`: the
claimed unconditional equality fails whenever `viewportWidth - menuWidth - 8`
drops below the 8-unit margin. -/
theorem C9_counterexample :
    ((⟨0, 0, 10, 50, 20⟩ : Rect).left + (⟨0, 0, 0, 95, 40⟩ : Rect).width
        > (⟨100, 100⟩ : Viewport).width)
    ∧ (updatePosition ⟨0, 0, 10, 50, 20⟩ ⟨0, 0, 0, 95, 40⟩ ⟨100, 100⟩).left = 8
    ∧ (updatePosition ⟨0, 0, 10, 50, 20⟩ ⟨0, 0, 0, 95, 40⟩ ⟨100, 100⟩).left
        ≠ (⟨100, 100⟩ : Viewport).width - (⟨0, 0, 0, 95, 40⟩ : Rect).width - 8 := by
  decide

/-- **C9** (amended): whenever `left + menuWidth > viewportWidth` the
computed left is clamped to `max(8, viewportWidth - menuWidth - 8)`; it
equals `viewportWidth - menuWidth - 8` exactly when that amount is at least
the 8-unit margin. -/
theorem C9_horizontal_clamp (buttonRect menuRect : Rect) (vp : Viewport)
    (h : buttonRect.left + menuRect.width > vp.width) :
    (updatePosition buttonRect menuRect vp).left
        = max 8 (vp.width - menuRect.width - 8)
    ∧ (8 ≤ vp.width - menuRect.width - 8 →
        (updatePosition buttonRect menuRect vp).left
          = vp.width - menuRect.width - 8) := by
  constructor
  · simp [updatePosition, h]
  · intro h2
    simp [updatePosition, h, max_eq_right h2]

/-- Witness for C9: 800-wide viewport, 300-wide menu at trigger left 600:
left is clamped to 800 - 300 - 8 = 492. -/
theorem C9_horizontal_clamp_witness :
    (updatePosition ⟨0, 0, 600, 50, 20⟩ ⟨0, 0, 0, 300, 40⟩
        ⟨800, 600⟩).left = 492 := by
  have h := (C9_horizontal_clamp ⟨0, 0, 600, 50, 20⟩ ⟨0, 0, 0, 300, 40⟩
      ⟨800, 600⟩ (by decide)).2 (by decide)
  rw [h]
  decide

/-! ### C10 — highlight recomputation on committed multi-select toggles -/

/-- **C10**: the highlight effect keys on
`[open, selectedValue, multi, value2idx]`, so it re-runs whenever the
selection (or the option list) changes while the menu is open, not only at
the moment of opening; in multi-select mode a committed toggle stores a
fresh selection collection and keeps the menu open, so the effect re-runs
its multi branch and resets the highlight to 0, discarding whatever
position the user had reached. -/
theorem C10_multi_select_resets_highlight {V : Type} [DecidableEq V]
    (options : List (DOption V)) (s : WidgetState V) (option : DOption V)
    (hopen : s.isOpen = true) :
    (selectPostRender true false JSVal.null options s option).isOpen = true
    ∧ (selectPostRender true false JSVal.null options s option).highlightedIdx
        = 0 := by
  constructor
  · simp [selectPostRender, handleSelect, applyHighlightEffect,
      isControlled, hopen]
  · simp [selectPostRender, handleSelect, applyHighlightEffect,
      recomputeHighlight, isControlled, hopen]

/-- Witness for C10: highlight 2 before an (uncontrolled) multi toggle,
0 after, menu still open. -/
theorem C10_multi_select_resets_highlight_witness :
    (selectPostRender true false (JSVal.null : JSVal Nat)
        [⟨"A", 1⟩, ⟨"B", 2⟩, ⟨"C", 3⟩] ⟨true, 2, JSVal.arr []⟩
        ⟨"B", 2⟩).highlightedIdx = 0 :=
  (C10_multi_select_resets_highlight [⟨"A", 1⟩, ⟨"B", 2⟩, ⟨"C", 3⟩]
      ⟨true, 2, JSVal.arr []⟩ ⟨"B", 2⟩ rfl).2

end Dropdown
